import Mathlib

/-!
Verification of the configuration and logging subsystem of the
`autoinvoice` repository (files `src/config/settings.py`,
`src/config/logging_config.py`, `src/api/middleware.py`,
`src/utils/logger.py`).

The Python code is shallowly embedded: Python dictionaries become
association lists with Python's insert-or-update assignment semantics,
values appearing in log records become the inductive type `PyVal`,
exceptions become `Except`, and the mutable root logger / settings cache
become explicit state passing.  `json.dumps` of a dict is modelled by the
dict itself together with a serializability check mirroring the
`TypeError` the library raises on non-serializable values: the emitted
line is exactly the JSON rendering of that dict, and parsing the line
yields the dict back, so claims about "the parsed object" are stated as
lookups in the dict.
-/

namespace AutoInvoice

/-- A Python value as it can appear in a log record's `extra` mapping or
in the dict built by the JSON formatter.  `obj` stands for an arbitrary
object that `json.dumps` cannot serialize (a set, a custom class, ...). -/
inductive PyVal where
  | str : String → PyVal
  | int : Int → PyVal
  | rat : ℚ → PyVal
  | bool : Bool → PyVal
  | none : PyVal
  | obj : String → PyVal
deriving DecidableEq, Repr

/-- Predicate for the values `json.dumps` accepts (floats, ints, strings,
booleans and `None` are serializable; an arbitrary object is not). -/
def PyVal.serializable : PyVal → Bool
  | .obj _ => false
  | _ => true

/-- A Python `dict` with string keys, as an ordered association list. -/
abbrev PyDict := List (String × PyVal)

/-- Python dict assignment `d[k] = v`: update the key's entry in place
if the key is present (keeping its position), otherwise append at the
end. -/
def dinsert : PyDict → String → PyVal → PyDict
  | [], k, v => [(k, v)]
  | p :: rest, k, v => if p.1 = k then (k, v) :: rest else p :: dinsert rest k v

/-- Python dict lookup `d[k]` (as an option). -/
def dlookup : PyDict → String → Option PyVal
  | [], _ => Option.none
  | p :: rest, k => if p.1 = k then some p.2 else dlookup rest k

/-- Plain association-list lookup for string-valued tables. -/
def slookup : List (String × String) → String → Option String
  | [], _ => Option.none
  | p :: rest, k => if p.1 = k then some p.2 else slookup rest k

/-- Python `str.lower()`. -/
def toLowerStr (s : String) : String := String.mk (s.data.map Char.toLower)

/-- Python `str.upper()`. -/
def toUpperStr (s : String) : String := String.mk (s.data.map Char.toUpper)

/-- Is the first list a prefix of the second? -/
def charsStart : List Char → List Char → Bool
  | [], _ => true
  | _ :: _, [] => false
  | c :: cs, d :: ds => c = d && charsStart cs ds

/-- Python `s.startswith(p)`. -/
def strStartsWith (s p : String) : Bool := charsStart p.data s.data

/-! ## `src/config/settings.py` -/

/-- The `Settings` pydantic model: scalar configuration fields with the
defaults declared in `src/config/settings.py`. -/
structure Settings where
  app_name : String := "AutoInvoice"
  app_version : String := "0.1.0"
  debug : Bool := false
  log_level : String := "INFO"
  log_format : String := "text"
  log_file : Option String := Option.none
  log_file_max_bytes : Int := 10485760
  log_file_backup_count : Int := 5
  postgres_host : String := "localhost"
  postgres_port : Int := 5432
  postgres_user : String := "autoinvoice"
  postgres_password : String := "autoinvoice"
  postgres_db : String := "autoinvoice"
  openai_api_key : Option String := Option.none
  openai_model : String := "gpt-4o-mini"
deriving DecidableEq, Repr

/-- Model of `Settings.database_url`: the f-string
`postgresql+psycopg://{user}:{password}@{host}:{port}/{db}`. -/
def Settings.database_url (s : Settings) : String :=
  "postgresql+psycopg://" ++ s.postgres_user ++ ":" ++ s.postgres_password
    ++ "@" ++ s.postgres_host ++ ":" ++ toString s.postgres_port
    ++ "/" ++ s.postgres_db

/-- The process environment (the merged view of real environment
variables over the `.env` file), as raw string pairs. -/
abbrev Env := List (String × String)

/-- Case-insensitive environment lookup (`case_sensitive=False` in
`SettingsConfigDict`). -/
def Env.get (e : Env) (k : String) : Option String :=
  (e.find? (fun p => toLowerStr p.1 = toLowerStr k)).map (fun p => p.2)

/-- Pydantic's lax string-to-bool coercion used for the `debug` field. -/
def parseBool (v : String) : Option Bool :=
  let l := toLowerStr v
  if l = "true" ∨ l = "t" ∨ l = "yes" ∨ l = "y" ∨ l = "on" ∨ l = "1" then some true
  else if l = "false" ∨ l = "f" ∨ l = "no" ∨ l = "n" ∨ l = "off" ∨ l = "0" then some false
  else Option.none

/-- Read one string field with its default. -/
def strField (e : Env) (k d : String) : String := (e.get k).getD d

/-- Read one optional string field (default `None`). -/
def optField (e : Env) (k : String) : Option String := e.get k

/-- Read one integer field; a malformed value is a validation error
naming the field. -/
def intField (e : Env) (k : String) (d : Int) : Except String Int :=
  match e.get k with
  | Option.none => .ok d
  | some v =>
    match v.toInt? with
    | some i => .ok i
    | Option.none => .error ("validation error: " ++ k)

/-- Read the boolean `debug` field. -/
def boolField (e : Env) (k : String) (d : Bool) : Except String Bool :=
  match e.get k with
  | Option.none => .ok d
  | some v =>
    match parseBool v with
    | some b => .ok b
    | Option.none => .error ("validation error: " ++ k)

/-- Construction of `Settings()` from the environment: every field is
read from the (case-insensitive) environment, falling back to its
declared default; typed fields are validated. -/
def Settings.ofEnv (e : Env) : Except String Settings := do
  let debug ← boolField e "debug" false
  let log_file_max_bytes ← intField e "log_file_max_bytes" 10485760
  let log_file_backup_count ← intField e "log_file_backup_count" 5
  let postgres_port ← intField e "postgres_port" 5432
  .ok
    { app_name := strField e "app_name" "AutoInvoice"
      app_version := strField e "app_version" "0.1.0"
      debug := debug
      log_level := strField e "log_level" "INFO"
      log_format := strField e "log_format" "text"
      log_file := optField e "log_file"
      log_file_max_bytes := log_file_max_bytes
      log_file_backup_count := log_file_backup_count
      postgres_host := strField e "postgres_host" "localhost"
      postgres_port := postgres_port
      postgres_user := strField e "postgres_user" "autoinvoice"
      postgres_password := strField e "postgres_password" "autoinvoice"
      postgres_db := strField e "postgres_db" "autoinvoice"
      openai_api_key := optField e "openai_api_key"
      openai_model := strField e "openai_model" "gpt-4o-mini" }

/-- The `@lru_cache` state of `get_settings`: the memoised instance. -/
structure ProcState where
  cache : Option Settings
deriving DecidableEq, Repr

/-- Model of `get_settings()`: return the cached instance if present, otherwise
construct `Settings()` from the environment and cache it.  `lru_cache`
does not cache a raising call, so on a validation error the state is
unchanged. -/
def get_settings (env : Env) (st : ProcState) : Except String (Settings × ProcState) :=
  match st.cache with
  | some s => .ok (s, st)
  | Option.none =>
    match Settings.ofEnv env with
    | .ok s => .ok (s, ⟨some s⟩)
    | .error msg => .error msg

/-- Model of `get_settings.cache_clear()`. -/
def cache_clear (_st : ProcState) : ProcState := ⟨Option.none⟩

/-! ## `src/utils/logger.py` -/

/-- The `__name__` of the module `src/utils/logger.py`. -/
def loggerModuleName : String := "src.utils.logger"

/-- Model of `logging.getLogger(n)`, identified by the registry name of the
logger it returns: a falsy (empty) name yields the root logger, whose
`.name` is `"root"`. -/
def loggingGetLogger (n : String) : String :=
  if n = "" then "root" else n

/-- Model of `get_logger(name)`, that is `logging.getLogger(name or __name__)`.  Python's
`or` takes the right operand when `name` is `None` **or** the empty
string (both are falsy). -/
def get_logger (name : Option String) : String :=
  loggingGetLogger
    (match name with
     | Option.none => loggerModuleName
     | some s => if s = "" then loggerModuleName else s)

/-! ## `src/config/logging_config.py` -/

/-- A `logging.LogRecord` as the formatters see it: the standard
attributes the formatters read, the formatted exception text (if
`exc_info` was attached), and the caller-supplied `extra` attributes
that were copied into `record.__dict__` (every other standard attribute
of `__dict__` is in the formatter's exclusion list and never emitted,
so it is not carried here). -/
structure LogRecord where
  name : String
  levelname : String
  msg : String
  module : String
  funcName : String
  lineno : Int
  excInfo : Option String
  extras : PyDict
deriving DecidableEq, Repr

/-- The fixed exclusion list in the loop of `JSONFormatter.format`. -/
def excludedKeys : List String :=
  ["name", "msg", "args", "created", "filename", "funcName", "levelname",
   "levelno", "lineno", "module", "msecs", "message", "pathname", "process",
   "processName", "relativeCreated", "thread", "threadName", "exc_info",
   "exc_text", "stack_info", "request_id", "user_id"]

/-- One step of the copy loop of `JSONFormatter.format`: an attribute is
copied unless its key is in the exclusion list or starts with `_`. -/
def copyStep (d : PyDict) (kv : String × PyVal) : PyDict :=
  if kv.1 ∈ excludedKeys ∨ strStartsWith kv.1 "_" then d else dinsert d kv.1 kv.2

/-- The initial `log_data` dict literal of `JSONFormatter.format`: the
seven fixed fields.  `ts` is `datetime.now(UTC).isoformat()`. -/
def logDataBase (ts : String) (r : LogRecord) : PyDict :=
  [("timestamp", .str ts), ("level", .str r.levelname),
   ("logger", .str r.name), ("message", .str r.msg),
   ("module", .str r.module), ("function", .str r.funcName),
   ("line", .int r.lineno)]

/-- The dict `log_data` built by `JSONFormatter.format` for a record:
the seven fixed fields, the formatted exception if present, the special
`request_id` / `user_id` attributes if present, then the copy loop over
the remaining record attributes. -/
def buildLogData (ts : String) (r : LogRecord) : PyDict :=
  let d1 := match r.excInfo with
    | some tb => dinsert (logDataBase ts r) "exception" (.str tb)
    | Option.none => logDataBase ts r
  let d2 := match dlookup r.extras "request_id" with
    | some v => dinsert d1 "request_id" v
    | Option.none => d1
  let d3 := match dlookup r.extras "user_id" with
    | some v => dinsert d2 "user_id" v
    | Option.none => d2
  r.extras.foldl copyStep d3

/-- Model of `JSONFormatter.format`: build `log_data` and emit `json.dumps(log_data)`.
The result is the emitted line, represented by the dict it renders (the
line is its JSON serialization and parses back to it); `json.dumps`
raises `TypeError` when some value in the dict is not serializable. -/
def JSONFormatter.format (ts : String) (r : LogRecord) : Except String PyDict :=
  let d := buildLogData ts r
  if d.all (fun kv => kv.2.serializable) then .ok d
  else .error "TypeError: Object is not JSON serializable"

/-- The ANSI color table of `ColoredFormatter`. -/
def COLORS : List (String × String) :=
  [("DEBUG", "\x1b[36m"), ("INFO", "\x1b[32m"), ("WARNING", "\x1b[33m"),
   ("ERROR", "\x1b[31m"), ("CRITICAL", "\x1b[35m")]

/-- ANSI reset code. -/
def RESET : String := "\x1b[0m"

/-- ANSI bold code. -/
def BOLD : String := "\x1b[1m"

/-- Python `%-8s` padding: left-justify in a field of width 8. -/
def padTo8 (s : String) : String :=
  s ++ String.mk (List.replicate (8 - s.length) ' ')

/-- Model of `ColoredFormatter.format`: if the record's level name is in the color
table, **mutate the record in place**, replacing `record.levelname` by
the color-and-bold wrapped name, then render the configured format
string `%(asctime)s | %(levelname)-8s | %(name)s:%(funcName)s:%(lineno)d
| %(message)s` on the (mutated) record.  Returns the mutated record
together with the rendered line; `asctime` is the `datefmt`-rendered
creation time. -/
def ColoredFormatter.format (asctime : String) (r : LogRecord) : LogRecord × String :=
  let record :=
    match slookup COLORS r.levelname with
    | some c => { r with levelname := c ++ BOLD ++ r.levelname ++ RESET }
    | Option.none => r
  (record,
   asctime ++ " | " ++ padTo8 record.levelname ++ " | " ++ record.name
     ++ ":" ++ record.funcName ++ ":" ++ toString record.lineno
     ++ " | " ++ record.msg)

/-- The table `logging._nameToLevel`: the level names `Logger.setLevel` accepts; a
string outside this table makes `setLevel` raise `ValueError`. -/
def checkLevel (s : String) : Option Nat :=
  if s = "CRITICAL" ∨ s = "FATAL" then some 50
  else if s = "ERROR" then some 40
  else if s = "WARNING" ∨ s = "WARN" then some 30
  else if s = "INFO" then some 20
  else if s = "DEBUG" then some 10
  else if s = "NOTSET" then some 0
  else Option.none

/-- A formatter attached to a handler. -/
inductive Formatter where
  | json : Formatter
  | colored (fmt : String) (datefmt : String) : Formatter
deriving DecidableEq, Repr

/-- The `fmt` string of the console `ColoredFormatter` in `setup_logging`. -/
def consoleFmtString : String :=
  "%(asctime)s | %(levelname)-8s | %(name)s:%(funcName)s:%(lineno)d | %(message)s"

/-- The `datefmt` string of the console `ColoredFormatter`. -/
def consoleDateString : String := "%Y-%m-%d %H:%M:%S"

/-- A handler attached to the root logger. -/
inductive Handler where
  | console (level : Nat) (fmt : Formatter)
  | rotatingFile (filename : String) (maxBytes : Int) (backupCount : Int)
      (level : Nat) (fmt : Formatter)
deriving DecidableEq, Repr

/-- Is this handler the console (`StreamHandler(sys.stdout)`) sink? -/
def Handler.isConsole : Handler → Bool
  | .console _ _ => true
  | _ => false

/-- Is this handler the rotating file sink? -/
def Handler.isFile : Handler → Bool
  | .rotatingFile _ _ _ _ _ => true
  | _ => false

/-- The mutable state of the process-wide root logger. -/
structure RootLogger where
  level : Nat
  handlers : List Handler
deriving DecidableEq, Repr

/-- Model of `setup_logging(settings)`.  `root_logger.setLevel(log_level.upper())`
runs first and raises `ValueError` on an unregistered level name,
leaving the handler list untouched; otherwise the handlers are cleared,
a console handler is attached (JSON formatter in `"json"` mode, the
colored text formatter otherwise), and a rotating file handler with the
JSON formatter is attached when a log file is configured.  (The
filesystem side effects, the third-party logger suppression and the
final startup log line do not touch the root handler list and are not
modelled.) -/
def setup_logging (s : Settings) (rl : RootLogger) : Except String RootLogger :=
  match checkLevel (toUpperStr s.log_level) with
  | Option.none => .error ("Unknown level: " ++ toUpperStr s.log_level)
  | some lvl =>
    let consoleFormatter :=
      if s.log_format = "json" then Formatter.json
      else Formatter.colored consoleFmtString consoleDateString
    let consoleHandler := Handler.console lvl consoleFormatter
    let handlers :=
      match s.log_file with
      | some f =>
        [consoleHandler,
         Handler.rotatingFile f s.log_file_max_bytes s.log_file_backup_count
           lvl Formatter.json]
      | Option.none => [consoleHandler]
    .ok { level := lvl, handlers := handlers }

/-- Runs `n` consecutive invocations of `setup_logging` on the root logger. -/
def setupN (s : Settings) : Nat → RootLogger → Except String RootLogger
  | 0, rl => .ok rl
  | n + 1, rl => (setup_logging s rl).bind (setupN s n)

/-- The formatters of the console handlers of a root logger. -/
def consoleFormatters (rl : RootLogger) : List Formatter :=
  rl.handlers.filterMap (fun h =>
    match h with
    | .console _ f => some f
    | _ => Option.none)

/-- The formatters of the rotating file handlers of a root logger. -/
def fileFormatters (rl : RootLogger) : List Formatter :=
  rl.handlers.filterMap (fun h =>
    match h with
    | .rotatingFile _ _ _ _ f => some f
    | _ => Option.none)

/-! ## `src/api/middleware.py`

`uuid.uuid4()` draws a fresh universally-unique token on every call; it
is modelled as an injective function of a per-call freshness seed, so
that two distinct draws yield two distinct ID strings, which is the
library's uniqueness guarantee.  `time.time()` values are rationals
supplied by the ambient clock. -/

/-- Decimal digits of a seed, least significant first (empty for 0). -/
def uuidDigits (n : Nat) : List Char :=
  if h : n = 0 then []
  else Nat.digitChar (n % 10) :: uuidDigits (n / 10)
decreasing_by exact Nat.div_lt_self (Nat.pos_of_ne_zero h) (by decide)

/-- Inverse reading of `uuidDigits`. -/
def uuidVal : List Char → Nat
  | [] => 0
  | c :: cs => (c.toNat - 48) + 10 * uuidVal cs

/-- The string form of the freshly drawn UUID token for a given seed. -/
def uuid4 (seed : Nat) : String := String.mk (uuidDigits seed)

/-- An in-flight HTTP request as the middleware reads it. -/
structure Request where
  method : String
  path : String
  clientHost : Option String
deriving DecidableEq, Repr

/-- An HTTP response: status code and (string-valued) headers. -/
structure Response where
  statusCode : Int
  headers : List (String × String)
deriving DecidableEq, Repr

/-- Assignment `response.headers[k] = v`: update in place or append. -/
def setHeader : List (String × String) → String → String → List (String × String)
  | [], k, v => [(k, v)]
  | p :: rest, k, v => if p.1 = k then (k, v) :: rest else p :: setHeader rest k v

/-- Header lookup `response.headers[k]` (as an option). -/
def hlookup : List (String × String) → String → Option String
  | [], _ => Option.none
  | p :: rest, k => if p.1 = k then some p.2 else hlookup rest k

/-- A Python exception carrying its type and message; `str(e)` is the
message. -/
structure PyExc where
  ty : String
  msg : String
deriving DecidableEq, Repr

/-- One call to `logger.info` / `logger.error` in the middleware:
severity name, message, the `extra` dict, and whether `exc_info=True`
was attached. -/
structure LogEvent where
  level : String
  message : String
  extra : PyDict
  excInfo : Bool
deriving DecidableEq, Repr

/-- Python `round(x, 2)` on the rationals. (CPython rounds ties to even; the
two functions agree away from exact half-cent ties, and no claim here
depends on tie-breaking.) -/
def roundTo2 (q : ℚ) : ℚ := ((round (q * 100) : ℤ) : ℚ) / 100

/-- The outcome of one `RequestLoggingMiddleware.dispatch` call: the ID
stored on `request.state.request_id`, the log events emitted in order,
and the returned response or re-raised exception. -/
structure DispatchOut where
  requestStateId : String
  logs : List LogEvent
  result : Except PyExc Response
deriving Repr

/-- Model of `RequestLoggingMiddleware.dispatch`.  `seed` is the freshness seed
of this call's `uuid.uuid4()` draw; `call_next` is the downstream
handler chain (returning a response or raising); `t1` and `t2` are the
wall-clock readings of `time.time()` at the start and at the
exit/failure point. -/
def dispatch (seed : Nat) (req : Request)
    (call_next : Request → Except PyExc Response) (t1 t2 : ℚ) : DispatchOut :=
  let request_id := uuid4 seed
  let log_extra : PyDict :=
    [("request_id", .str request_id), ("method", .str req.method),
     ("path", .str req.path),
     ("client_ip", match req.clientHost with
                   | some h => .str h
                   | Option.none => .none)]
  let entry : LogEvent :=
    ⟨"INFO", req.method ++ " " ++ req.path, log_extra, false⟩
  match call_next req with
  | .ok response =>
    let duration := t2 - t1
    let exitEvent : LogEvent :=
      ⟨"INFO",
       req.method ++ " " ++ req.path ++ " - " ++ toString response.statusCode,
       dinsert (dinsert log_extra "status_code" (.int response.statusCode))
         "duration_ms" (.rat (roundTo2 (duration * 1000))),
       false⟩
    let response' :=
      { response with headers := setHeader response.headers "X-Request-ID" request_id }
    ⟨request_id, [entry, exitEvent], .ok response'⟩
  | .error e =>
    let duration := t2 - t1
    let errorEvent : LogEvent :=
      ⟨"ERROR", req.method ++ " " ++ req.path ++ " - ERROR",
       dinsert (dinsert log_extra "duration_ms" (.rat (roundTo2 (duration * 1000))))
         "error" (.str e.msg),
       true⟩
    ⟨request_id, [entry, errorEvent], .error e⟩

/-- Model of `get_request_id(request)`: read `request.state.request_id`, `None`
when the middleware never ran on this request. -/
def get_request_id (state_request_id : Option String) : Option String :=
  state_request_id

/-! ## Helper lemmas -/

theorem dlookup_dinsert (d : PyDict) (k k' : String) (v : PyVal) :
    dlookup (dinsert d k v) k' = if k = k' then some v else dlookup d k' := by
  induction d with
  | nil => by_cases h : k = k' <;> simp [dinsert, dlookup, h]
  | cons p rest ih =>
    by_cases hp : p.1 = k
    · by_cases h : k = k'
      · simp [dinsert, hp, dlookup, h]
      · have hp' : p.1 ≠ k' := fun hc => h (hp.symm.trans hc)
        simp [dinsert, hp, dlookup, h, hp']
    · by_cases h : p.1 = k'
      · have hk : k ≠ k' := fun hc => hp (h.trans hc.symm)
        simp [dinsert, hp, dlookup, h, hk, Ne.symm hk]
      · simp [dinsert, hp, dlookup, h, ih]

theorem dlookup_of_mem_nodup (d : PyDict) (k : String) (v : PyVal)
    (hmem : (k, v) ∈ d) (hnd : (d.map Prod.fst).Nodup) :
    dlookup d k = some v := by
  induction d with
  | nil => cases hmem
  | cons p rest ih =>
    rw [List.map_cons, List.nodup_cons] at hnd
    rcases List.mem_cons.mp hmem with h | h
    · simp [← h, dlookup]
    · have hk : p.1 ≠ k := by
        intro hpk
        exact hnd.1 (by rw [hpk]; exact List.mem_map.mpr ⟨(k, v), h, rfl⟩)
      simp only [dlookup, if_neg hk]
      exact ih h hnd.2

theorem hlookup_setHeader (hs : List (String × String)) (k k' v : String) :
    hlookup (setHeader hs k v) k' = if k = k' then some v else hlookup hs k' := by
  induction hs with
  | nil => by_cases h : k = k' <;> simp [setHeader, hlookup, h]
  | cons p rest ih =>
    by_cases hp : p.1 = k
    · by_cases h : k = k'
      · simp [setHeader, hp, hlookup, h]
      · have hp' : p.1 ≠ k' := fun hc => h (hp.symm.trans hc)
        simp [setHeader, hp, hlookup, h, hp']
    · by_cases h : p.1 = k'
      · have hk : k ≠ k' := fun hc => hp (h.trans hc.symm)
        simp [setHeader, hp, hlookup, h, hk, Ne.symm hk]
      · simp [setHeader, hp, hlookup, h, ih]

theorem dlookup_foldl_copyStep_of_ne (l : PyDict) (d : PyDict) (k : String)
    (h : ∀ kv ∈ l, (kv.1 ∈ excludedKeys ∨ strStartsWith kv.1 "_" = true) ∨ kv.1 ≠ k) :
    dlookup (l.foldl copyStep d) k = dlookup d k := by
  induction l generalizing d with
  | nil => rfl
  | cons kv rest ih =>
    rw [List.foldl_cons, ih _ (fun p hp => h p (List.mem_cons_of_mem kv hp))]
    unfold copyStep
    by_cases hskip : kv.1 ∈ excludedKeys ∨ strStartsWith kv.1 "_"
    · rw [if_pos hskip]
    · have hne : kv.1 ≠ k := by
        rcases h kv (List.mem_cons_self kv rest) with hex | hne
        · exact absurd hex hskip
        · exact hne
      rw [if_neg hskip, dlookup_dinsert, if_neg hne]

theorem dlookup_foldl_copyStep_of_mem (l : PyDict) (d : PyDict) (k : String) (v : PyVal)
    (hmem : (k, v) ∈ l) (hnd : (l.map Prod.fst).Nodup)
    (hexcl : k ∉ excludedKeys) (hund : strStartsWith k "_" = false) :
    dlookup (l.foldl copyStep d) k = some v := by
  induction l generalizing d with
  | nil => cases hmem
  | cons kv rest ih =>
    rw [List.map_cons, List.nodup_cons] at hnd
    rcases List.mem_cons.mp hmem with h | h
    · rw [List.foldl_cons]
      rw [dlookup_foldl_copyStep_of_ne rest _ k]
      · rw [← h]
        unfold copyStep
        rw [if_neg (by simp [hexcl, hund]), dlookup_dinsert, if_pos rfl]
      · intro p hp
        right
        intro hpk
        rw [← h] at hnd
        exact hnd.1 (by rw [← hpk]; exact List.mem_map.mpr ⟨p, hp, rfl⟩)
    · rw [List.foldl_cons]
      exact ih (copyStep d kv) h hnd.2

theorem isSome_dlookup_foldl_copyStep (l : PyDict) (d : PyDict) (k : String)
    (h : (dlookup d k).isSome = true) :
    (dlookup (l.foldl copyStep d) k).isSome = true := by
  induction l generalizing d with
  | nil => exact h
  | cons kv rest ih =>
    rw [List.foldl_cons]
    refine ih _ ?_
    unfold copyStep
    by_cases hskip : kv.1 ∈ excludedKeys ∨ strStartsWith kv.1 "_"
    · simpa [hskip] using h
    · rw [if_neg hskip, dlookup_dinsert]
      by_cases hk : kv.1 = k <;> simp [hk, h]

theorem all_snd_dinsert (q : PyVal → Bool) (d : PyDict) (k : String) (v : PyVal)
    (hd : ∀ kv ∈ d, q kv.2 = true) (hv : q v = true) :
    ∀ kv ∈ dinsert d k v, q kv.2 = true := by
  induction d with
  | nil => intro kv hkv; simp [dinsert] at hkv; rw [hkv]; exact hv
  | cons p rest ih =>
    intro kv hkv
    unfold dinsert at hkv
    by_cases hp : p.1 = k
    · rw [if_pos hp] at hkv
      rcases List.mem_cons.mp hkv with h | h
      · rw [h]; exact hv
      · exact hd kv (List.mem_cons_of_mem p h)
    · rw [if_neg hp] at hkv
      rcases List.mem_cons.mp hkv with h | h
      · exact hd kv (h ▸ List.mem_cons_self p rest)
      · exact ih (fun x hx => hd x (List.mem_cons_of_mem p hx)) kv h

theorem all_snd_foldl_copyStep (q : PyVal → Bool) (l : PyDict) (d : PyDict)
    (hd : ∀ kv ∈ d, q kv.2 = true) (hl : ∀ kv ∈ l, q kv.2 = true) :
    ∀ kv ∈ l.foldl copyStep d, q kv.2 = true := by
  induction l generalizing d with
  | nil => exact hd
  | cons p rest ih =>
    rw [List.foldl_cons]
    refine ih (copyStep d p) ?_ (fun x hx => hl x (List.mem_cons_of_mem p hx))
    unfold copyStep
    by_cases hskip : p.1 ∈ excludedKeys ∨ strStartsWith p.1 "_"
    · rw [if_pos hskip]; exact hd
    · rw [if_neg hskip]
      exact all_snd_dinsert q d p.1 p.2 hd (hl p (List.mem_cons_self p rest))

theorem uuidVal_uuidDigits (n : Nat) : uuidVal (uuidDigits n) = n := by
  induction n using Nat.strong_induction_on with
  | _ n ih =>
    by_cases h : n = 0
    · subst h; simp [uuidDigits, uuidVal]
    · rw [uuidDigits, dif_neg h]
      have hd : n % 10 < 10 := Nat.mod_lt _ (by decide)
      have hchar : ∀ d, d < 10 → (Nat.digitChar d).toNat - 48 = d := by decide
      rw [uuidVal, ih (n / 10) (Nat.div_lt_self (Nat.pos_of_ne_zero h) (by decide)),
        hchar _ hd]
      omega

theorem uuid4_injective : Function.Injective uuid4 := by
  intro a b h
  have hd : uuidDigits a = uuidDigits b := congrArg String.data h
  have hv := congrArg uuidVal hd
  rwa [uuidVal_uuidDigits, uuidVal_uuidDigits] at hv

theorem roundTo2_nonneg (q : ℚ) (h : 0 ≤ q) : 0 ≤ roundTo2 q := by
  unfold roundTo2
  have h2 : (0 : ℤ) ≤ round (q * 100) := by
    rw [round_eq]
    exact Int.floor_nonneg.mpr (by linarith)
  have h3 : (0 : ℚ) ≤ ((round (q * 100) : ℤ) : ℚ) := Int.cast_nonneg.mpr h2
  linarith

theorem mem_of_dlookup_eq_some (d : PyDict) (k : String) (v : PyVal)
    (h : dlookup d k = some v) : (k, v) ∈ d := by
  induction d with
  | nil => simp [dlookup] at h
  | cons p rest ih =>
    by_cases hp : p.1 = k
    · simp only [dlookup, if_pos hp] at h
      have : (k, v) = p := by
        rw [← hp, ← Option.some.inj h]
      exact this ▸ List.mem_cons_self p rest
    · simp only [dlookup, if_neg hp] at h
      exact List.mem_cons_of_mem p (ih h)

theorem isSome_dlookup_dinsert (d : PyDict) (k k' : String) (v : PyVal)
    (h : (dlookup d k).isSome = true) :
    (dlookup (dinsert d k' v) k).isSome = true := by
  rw [dlookup_dinsert]
  by_cases hk : k' = k <;> simp [hk, h]

theorem buildLogData_serializable (ts : String) (r : LogRecord)
    (hser : ∀ kv ∈ r.extras, kv.2.serializable = true) :
    ∀ kv ∈ buildLogData ts r, kv.2.serializable = true := by
  have hbase : ∀ kv ∈ logDataBase ts r, kv.2.serializable = true := by
    intro kv hkv
    simp only [logDataBase, List.mem_cons, List.not_mem_nil, or_false] at hkv
    rcases hkv with h | h | h | h | h | h | h <;> subst h <;> rfl
  unfold buildLogData
  apply all_snd_foldl_copyStep _ _ _ _ hser
  have h1 : ∀ kv ∈ (match r.excInfo with
      | some tb => dinsert (logDataBase ts r) "exception" (.str tb)
      | Option.none => logDataBase ts r), kv.2.serializable = true := by
    cases r.excInfo with
    | none => exact hbase
    | some tb => exact all_snd_dinsert _ _ _ _ hbase rfl
  have h2 : ∀ kv ∈ (match dlookup r.extras "request_id" with
      | some v => dinsert (match r.excInfo with
          | some tb => dinsert (logDataBase ts r) "exception" (.str tb)
          | Option.none => logDataBase ts r) "request_id" v
      | Option.none => (match r.excInfo with
          | some tb => dinsert (logDataBase ts r) "exception" (.str tb)
          | Option.none => logDataBase ts r)), kv.2.serializable = true := by
    cases hq : dlookup r.extras "request_id" with
    | none => exact h1
    | some v =>
      exact all_snd_dinsert _ _ _ _ h1 (hser _ (mem_of_dlookup_eq_some _ _ _ hq))
  cases hu : dlookup r.extras "user_id" with
  | none => simpa [hu] using h2
  | some v =>
    simp only [hu]
    exact all_snd_dinsert _ _ _ _ h2 (hser _ (mem_of_dlookup_eq_some _ _ _ hu))

theorem isSome_dlookup_buildLogData (ts : String) (r : LogRecord) (k : String)
    (h : (dlookup (logDataBase ts r) k).isSome = true) :
    (dlookup (buildLogData ts r) k).isSome = true := by
  unfold buildLogData
  apply isSome_dlookup_foldl_copyStep
  cases r.excInfo <;> cases dlookup r.extras "request_id" <;>
    cases dlookup r.extras "user_id" <;>
    simp only [] <;>
    repeat' apply isSome_dlookup_dinsert
  all_goals exact h

theorem dlookup_buildLogData_of_untouched (ts : String) (r : LogRecord) (k : String)
    (hex : k ≠ "exception") (hreq : k ≠ "request_id") (husr : k ≠ "user_id")
    (hextras : ∀ kv ∈ r.extras,
      (kv.1 ∈ excludedKeys ∨ strStartsWith kv.1 "_" = true) ∨ kv.1 ≠ k) :
    dlookup (buildLogData ts r) k = dlookup (logDataBase ts r) k := by
  unfold buildLogData
  rw [dlookup_foldl_copyStep_of_ne _ _ _ hextras]
  cases r.excInfo <;> cases dlookup r.extras "request_id" <;>
    cases dlookup r.extras "user_id" <;>
    simp [dlookup_dinsert, Ne.symm hex, Ne.symm hreq, Ne.symm husr]

/-- Given a registered level name, one `setup_logging` call succeeds and
installs exactly one console handler and one file handler iff a log file
is configured; the result does not depend on the prior root logger. -/
theorem setup_logging_ok (s : Settings) (lvl : Nat)
    (hlvl : checkLevel (toUpperStr s.log_level) = some lvl) (rl : RootLogger) :
    ∃ rl', setup_logging s rl = .ok rl' ∧
      rl'.handlers.countP Handler.isConsole = 1 ∧
      rl'.handlers.countP Handler.isFile = (if s.log_file.isSome then 1 else 0) := by
  unfold setup_logging
  rw [hlvl]
  cases hf : s.log_file with
  | none =>
    refine ⟨_, rfl, ?_, ?_⟩ <;>
      simp [List.countP_cons, Handler.isConsole, Handler.isFile]
  | some f =>
    refine ⟨_, rfl, ?_, ?_⟩ <;>
      simp [List.countP_cons, Handler.isConsole, Handler.isFile]

/-! ## Claim theorems -/

/-- C4: for every `Settings` instance, `database_url` is exactly the
concatenation `postgresql+psycopg://` + user + `:` + password + `@` +
host + `:` + port + `/` + database, with the field values inserted
verbatim (no escaping or transformation). -/
theorem database_url_is_concatenation (s : Settings) :
    s.database_url =
      "postgresql+psycopg://" ++ s.postgres_user ++ ":" ++ s.postgres_password
        ++ "@" ++ s.postgres_host ++ ":" ++ toString s.postgres_port
        ++ "/" ++ s.postgres_db :=
  rfl

/-- C10 counterexample: `get_logger` with the empty string — a non-`None`
name — does not return the logger registered under that name: Python's
`name or __name__` treats `""` as falsy, so the module logger
`src.utils.logger` is returned instead. -/
theorem get_logger_empty_name_counterexample :
    get_logger (some "") = "src.utils.logger" ∧
    ("src.utils.logger" : String) ≠ "" := by
  exact ⟨rfl, by decide⟩

/-- C10 (amended): `get_logger` with no argument (or `None`) returns the
logger named `src.utils.logger` — not the root logger — and for every
non-`None`, **non-empty** name it returns the logger registered under
exactly that name; the empty string, being falsy, also yields the module
logger. -/
theorem get_logger_name_resolution :
    get_logger Option.none = loggerModuleName ∧
    get_logger Option.none ≠ loggingGetLogger "" ∧
    (∀ s : String, s ≠ "" → get_logger (some s) = s) := by
  refine ⟨rfl, by decide, ?_⟩
  intro s hs
  simp [get_logger, loggingGetLogger, hs]

/-- Witness for C10 at the concrete name `src.api.middleware`. -/
theorem get_logger_name_resolution_witness :
    get_logger (some "src.api.middleware") = "src.api.middleware" :=
  get_logger_name_resolution.2.2 "src.api.middleware" (by decide)

/-- C5: a call to `get_settings` that finds a cached instance returns it
unchanged (so two calls return observably identical field values,
whatever the environment looks like at the second call), and after
`cache_clear` a subsequent call re-reads the environment and reflects
it. -/
theorem get_settings_cached (env env₂ env₃ : Env) (st st' : ProcState)
    (s s₃ : Settings)
    (h1 : get_settings env st = .ok (s, st'))
    (h3 : Settings.ofEnv env₃ = .ok s₃) :
    get_settings env₂ st' = .ok (s, st') ∧
    get_settings env₃ (cache_clear st') = .ok (s₃, ⟨some s₃⟩) := by
  constructor
  · unfold get_settings at h1 ⊢
    cases hc : st.cache with
    | some s0 =>
      rw [hc] at h1
      simp only [Except.ok.injEq, Prod.mk.injEq] at h1
      rw [← h1.2, hc, h1.1]
    | none =>
      rw [hc] at h1
      cases he : Settings.ofEnv env with
      | ok s1 =>
        rw [he] at h1
        simp only [Except.ok.injEq, Prod.mk.injEq] at h1
        rw [← h1.2, h1.1]
      | error msg =>
        rw [he] at h1
        cases h1
  · unfold get_settings cache_clear
    rw [h3]

/-- Witness for C5: an empty environment yields the defaults and the
instance is reused even when the environment changes; after
`cache_clear`, `LOG_LEVEL=DEBUG` is reflected. -/
theorem get_settings_cached_witness :
    get_settings [("LOG_LEVEL", "DEBUG")] ⟨some {}⟩ = .ok ({}, ⟨some {}⟩) ∧
    get_settings [("LOG_LEVEL", "DEBUG")] (cache_clear ⟨some {}⟩) =
      .ok ({ log_level := "DEBUG" }, ⟨some { log_level := "DEBUG" }⟩) :=
  get_settings_cached [] [("LOG_LEVEL", "DEBUG")] [("LOG_LEVEL", "DEBUG")]
    ⟨Option.none⟩ ⟨some {}⟩ {} { log_level := "DEBUG" } (by rfl) (by rfl)

/-- C6 counterexample: `VERBOSE` is not a registered level name, so
`root_logger.setLevel` raises `ValueError` before any handler is
attached, and after the invocation the root logger still has zero
console sinks — the claim's "for every Settings instance" fails. -/
theorem setup_logging_bad_level_counterexample :
    setup_logging { log_level := "VERBOSE" } ⟨20, []⟩ =
      .error "Unknown level: VERBOSE" ∧
    (RootLogger.mk 20 []).handlers.countP Handler.isConsole = 0 :=
  ⟨by rfl, rfl⟩

/-- C6 (amended): for every `Settings` instance whose upper-cased
`log_level` is a registered logging level name, any number `n ≥ 1` of
consecutive `setup_logging` invocations succeeds and leaves exactly one
console sink attached, and exactly one file sink when a log file path is
configured and none otherwise. -/
theorem setup_logging_idempotent (s : Settings) (rl : RootLogger) (lvl : Nat)
    (n : Nat) (hlvl : checkLevel (toUpperStr s.log_level) = some lvl)
    (hn : 1 ≤ n) :
    ∃ rl', setupN s n rl = .ok rl' ∧
      rl'.handlers.countP Handler.isConsole = 1 ∧
      rl'.handlers.countP Handler.isFile = (if s.log_file.isSome then 1 else 0) := by
  induction n generalizing rl with
  | zero => exact absurd hn (by decide)
  | succ m ih =>
    obtain ⟨R, hR, hc, hf⟩ := setup_logging_ok s lvl hlvl rl
    cases m with
    | zero =>
      refine ⟨R, ?_, hc, hf⟩
      simp [setupN, hR, Except.bind]
    | succ m' =>
      obtain ⟨R', hR', hc', hf'⟩ := ih R (by omega)
      refine ⟨R', ?_, hc', hf'⟩
      simp only [setupN, hR, Except.bind]
      exact hR'

/-- Witness for C6: the default settings (level `INFO`, no log file),
two consecutive invocations. -/
theorem setup_logging_idempotent_witness :
    ∃ rl', setupN {} 2 ⟨0, []⟩ = .ok rl' ∧
      rl'.handlers.countP Handler.isConsole = 1 ∧
      rl'.handlers.countP Handler.isFile =
        (if (({} : Settings).log_file).isSome then 1 else 0) :=
  setup_logging_idempotent {} ⟨0, []⟩ 20 2 (by rfl) (by decide)

/-- C8 counterexample: with `log_format = "text"` but the unregistered
level name `VERBOSE`, `setup_logging` raises before touching the
handlers, so a pre-existing console sink keeps its JSON formatter — the
claim's "for every Settings instance" fails. -/
theorem setup_logging_formatter_counterexample :
    setup_logging { log_level := "VERBOSE", log_format := "text" }
        ⟨20, [Handler.console 20 Formatter.json]⟩ =
      .error "Unknown level: VERBOSE" ∧
    consoleFormatters ⟨20, [Handler.console 20 Formatter.json]⟩ =
      [Formatter.json] :=
  ⟨by rfl, rfl⟩

/-- C8 (amended): for every `Settings` instance whose upper-cased
`log_level` is a registered logging level name, `setup_logging` gives
the console sink the colorized text formatter when `log_format` is
`"text"` and the JSON formatter when it is `"json"`, and gives the file
sink (when a log file is configured) the JSON formatter regardless of
the console mode. -/
theorem setup_logging_formatter_selection (s : Settings) (rl : RootLogger)
    (lvl : Nat) (hlvl : checkLevel (toUpperStr s.log_level) = some lvl) :
    ∃ rl', setup_logging s rl = .ok rl' ∧
      (s.log_format = "text" →
        consoleFormatters rl' =
          [Formatter.colored consoleFmtString consoleDateString]) ∧
      (s.log_format = "json" → consoleFormatters rl' = [Formatter.json]) ∧
      (s.log_file.isSome = true → fileFormatters rl' = [Formatter.json]) := by
  unfold setup_logging
  rw [hlvl]
  cases hf : s.log_file with
  | none =>
    refine ⟨_, rfl, ?_, ?_, ?_⟩
    · intro ht
      simp [consoleFormatters, ht]
    · intro hj
      simp [consoleFormatters, hj]
    · intro habs
      simp at habs
  | some f =>
    refine ⟨_, rfl, ?_, ?_, ?_⟩
    · intro ht
      simp [consoleFormatters, ht]
    · intro hj
      simp [consoleFormatters, hj]
    · intro _
      simp [fileFormatters]

/-- Witness for C8: `json` console mode with a configured log file. -/
theorem setup_logging_formatter_selection_witness :
    ∃ rl', setup_logging { log_format := "json", log_file := some "logs/app.log" }
        ⟨0, []⟩ = .ok rl' ∧
      consoleFormatters rl' = [Formatter.json] ∧
      fileFormatters rl' = [Formatter.json] := by
  obtain ⟨rl', h1, _, h3, h4⟩ :=
    setup_logging_formatter_selection
      { log_format := "json", log_file := some "logs/app.log" } ⟨0, []⟩ 20 (by rfl)
  exact ⟨rl', h1, h3 rfl, h4 rfl⟩

/-- C7 counterexample: a record whose `extra` carries a non-serializable
value makes `json.dumps` raise `TypeError` — `JSONFormatter.format` is
not total. -/
theorem jsonFormatter_raises_counterexample :
    JSONFormatter.format "2025-01-01T00:00:00+00:00"
        { name := "src.api", levelname := "INFO", msg := "m", module := "api",
          funcName := "f", lineno := 1, excInfo := Option.none,
          extras := [("payload", PyVal.obj "set")] } =
      .error "TypeError: Object is not JSON serializable" := by
  rfl

/-- C7 (amended): `JSONFormatter.format` does not raise provided every
caller-supplied extra value is JSON-serializable; with a
non-serializable extra value `json.dumps` raises `TypeError` (no
stringify fallback is implemented). -/
theorem jsonFormatter_total_on_serializable (ts : String) (r : LogRecord)
    (hser : ∀ kv ∈ r.extras, kv.2.serializable = true) :
    ∃ d, JSONFormatter.format ts r = .ok d := by
  unfold JSONFormatter.format
  rw [if_pos (List.all_eq_true.mpr (buildLogData_serializable ts r hser))]
  exact ⟨_, rfl⟩

/-- Witness for C7: a record with serializable extras formats without
raising. -/
theorem jsonFormatter_total_on_serializable_witness :
    ∃ d, JSONFormatter.format "2025-01-01T00:00:00+00:00"
        { name := "src.api", levelname := "INFO", msg := "m", module := "api",
          funcName := "f", lineno := 1, excInfo := Option.none,
          extras := [("invoice_id", PyVal.str "INV-1")] } = .ok d :=
  jsonFormatter_total_on_serializable "2025-01-01T00:00:00+00:00"
    { name := "src.api", levelname := "INFO", msg := "m", module := "api",
      funcName := "f", lineno := 1, excInfo := Option.none,
      extras := [("invoice_id", PyVal.str "INV-1")] }
    (by intro kv hkv; simp at hkv; rw [hkv]; rfl)

/-- C3 counterexample: an extra key starting with an underscore is
passed as caller context (the logging library accepts it) but the copy
loop skips it, so the emitted object does not contain it. -/
theorem jsonFormatter_drops_underscore_counterexample :
    dlookup
      (buildLogData "2025-01-01T00:00:00+00:00"
        { name := "src.api", levelname := "INFO", msg := "m", module := "api",
          funcName := "f", lineno := 1, excInfo := Option.none,
          extras := [("_hidden", PyVal.str "v")] })
      "_hidden" = Option.none := by
  rfl

/-- C3 (amended): for a record whose extra values are JSON-serializable
(otherwise no line is emitted, see C7) and whose extra keys are
distinct, the emitted line parses to an object containing at minimum
`timestamp`, `level`, `logger` and `message`, and containing every extra
key with its value **except** keys starting with an underscore and keys
in the internal exclusion list (of which only `request_id` and `user_id`
can actually be passed as extras, and those two are still included). -/
theorem jsonFormatter_roundtrip (ts : String) (r : LogRecord)
    (hser : ∀ kv ∈ r.extras, kv.2.serializable = true)
    (hnd : (r.extras.map Prod.fst).Nodup) :
    ∃ d, JSONFormatter.format ts r = .ok d ∧
      (dlookup d "timestamp").isSome = true ∧
      (dlookup d "level").isSome = true ∧
      (dlookup d "logger").isSome = true ∧
      (dlookup d "message").isSome = true ∧
      (∀ kv ∈ r.extras,
        kv.1 = "request_id" ∨ kv.1 = "user_id" ∨
          (kv.1 ∉ excludedKeys ∧ strStartsWith kv.1 "_" = false) →
        dlookup d kv.1 = some kv.2) := by
  refine ⟨buildLogData ts r, ?_, ?_, ?_, ?_, ?_, ?_⟩
  · unfold JSONFormatter.format
    rw [if_pos (List.all_eq_true.mpr (buildLogData_serializable ts r hser))]
  · exact isSome_dlookup_buildLogData ts r "timestamp" rfl
  · exact isSome_dlookup_buildLogData ts r "level" rfl
  · exact isSome_dlookup_buildLogData ts r "logger" rfl
  · exact isSome_dlookup_buildLogData ts r "message" rfl
  · intro kv hkv hcase
    have hmem : (kv.1, kv.2) ∈ r.extras := by
      rw [Prod.mk.eta]; exact hkv
    have hl : dlookup r.extras kv.1 = some kv.2 :=
      dlookup_of_mem_nodup r.extras kv.1 kv.2 hmem hnd
    rcases hcase with hreq | husr | hkeep
    · -- `request_id`: inserted before the loop, skipped by the loop.
      rw [hreq] at hl ⊢
      unfold buildLogData
      rw [dlookup_foldl_copyStep_of_ne _ _ "request_id" ?side]
      case side =>
        intro kv' _
        by_cases h : kv'.1 = "request_id"
        · exact Or.inl (Or.inl (by rw [h]; decide))
        · exact Or.inr h
      rw [hl]
      cases dlookup r.extras "user_id" with
      | none => rw [dlookup_dinsert, if_pos rfl]
      | some w =>
        rw [dlookup_dinsert, if_neg (by decide), dlookup_dinsert, if_pos rfl]
    · -- `user_id`: inserted right before the loop, skipped by the loop.
      rw [husr] at hl ⊢
      unfold buildLogData
      rw [dlookup_foldl_copyStep_of_ne _ _ "user_id" ?side2]
      case side2 =>
        intro kv' _
        by_cases h : kv'.1 = "user_id"
        · exact Or.inl (Or.inl (by rw [h]; decide))
        · exact Or.inr h
      rw [hl, dlookup_dinsert, if_pos rfl]
    · -- an ordinary extra key: set by the copy loop.
      unfold buildLogData
      exact dlookup_foldl_copyStep_of_mem r.extras _ kv.1 kv.2 hmem hnd
        hkeep.1 hkeep.2

/-- Witness for C3: a record carrying `invoice_id` and `request_id`
extras; both appear in the parsed object with their values, alongside
the four fixed keys. -/
theorem jsonFormatter_roundtrip_witness :
    ∃ d, JSONFormatter.format "2025-01-01T00:00:00+00:00"
        { name := "src.api", levelname := "INFO", msg := "m", module := "api",
          funcName := "f", lineno := 1, excInfo := Option.none,
          extras := [("invoice_id", PyVal.str "INV-1"),
                     ("request_id", PyVal.str "abc")] } = .ok d ∧
      (dlookup d "timestamp").isSome = true ∧
      (dlookup d "level").isSome = true ∧
      (dlookup d "logger").isSome = true ∧
      (dlookup d "message").isSome = true ∧
      dlookup d "invoice_id" = some (PyVal.str "INV-1") ∧
      dlookup d "request_id" = some (PyVal.str "abc") := by
  obtain ⟨d, h1, h2, h3, h4, h5, h6⟩ :=
    jsonFormatter_roundtrip "2025-01-01T00:00:00+00:00"
      { name := "src.api", levelname := "INFO", msg := "m", module := "api",
        funcName := "f", lineno := 1, excInfo := Option.none,
        extras := [("invoice_id", PyVal.str "INV-1"),
                   ("request_id", PyVal.str "abc")] }
      (by intro kv hkv; simp at hkv; rcases hkv with h | h <;> rw [h] <;> rfl)
      (by decide)
  refine ⟨d, h1, h2, h3, h4, h5, ?_, ?_⟩
  · exact h6 ("invoice_id", PyVal.str "INV-1") (by simp)
      (Or.inr (Or.inr (by constructor <;> decide)))
  · exact h6 ("request_id", PyVal.str "abc") (by simp) (Or.inl rfl)

/-- C9: `ColoredFormatter.format` mutates its record in place — for a
record whose level name is in the color table, after the call the
record's `levelname` holds the ANSI color + bold wrapped name with a
trailing reset — so the JSON formatter processing the same record
afterwards emits the ANSI-wrapped name as its `level` value (stated for
records not carrying an extra named `level`, which would overwrite that
field anyway). -/
theorem coloredFormatter_mutates_levelname (asctime ts : String)
    (r : LogRecord) (c : String)
    (hc : slookup COLORS r.levelname = some c)
    (hextras : ∀ kv ∈ r.extras, kv.1 ≠ "level") :
    (ColoredFormatter.format asctime r).1.levelname =
      c ++ BOLD ++ r.levelname ++ RESET ∧
    dlookup (buildLogData ts (ColoredFormatter.format asctime r).1) "level" =
      some (.str (c ++ BOLD ++ r.levelname ++ RESET)) := by
  have hrec : (ColoredFormatter.format asctime r).1 =
      { r with levelname := c ++ BOLD ++ r.levelname ++ RESET } := by
    unfold ColoredFormatter.format
    rw [hc]
  rw [hrec]
  refine ⟨rfl, ?_⟩
  rw [dlookup_buildLogData_of_untouched ts
    { r with levelname := c ++ BOLD ++ r.levelname ++ RESET } "level"
    (by decide) (by decide) (by decide)
    (fun kv hkv => Or.inr (hextras kv hkv))]
  rfl

/-- Witness for C9 at level `INFO` (green). -/
theorem coloredFormatter_mutates_levelname_witness :
    (ColoredFormatter.format "2025-01-01 00:00:00"
        { name := "src.api", levelname := "INFO", msg := "m", module := "api",
          funcName := "f", lineno := 1, excInfo := Option.none,
          extras := [] }).1.levelname =
      "\x1b[32m" ++ BOLD ++ "INFO" ++ RESET ∧
    dlookup (buildLogData "2025-01-01T00:00:00+00:00"
        (ColoredFormatter.format "2025-01-01 00:00:00"
          { name := "src.api", levelname := "INFO", msg := "m", module := "api",
            funcName := "f", lineno := 1, excInfo := Option.none,
            extras := [] }).1) "level" =
      some (.str ("\x1b[32m" ++ BOLD ++ "INFO" ++ RESET)) :=
  coloredFormatter_mutates_levelname "2025-01-01 00:00:00"
    "2025-01-01T00:00:00+00:00"
    { name := "src.api", levelname := "INFO", msg := "m", module := "api",
      funcName := "f", lineno := 1, excInfo := Option.none, extras := [] }
    "\x1b[32m" (by rfl) (by intro kv hkv; cases hkv)

/-- The correlation ID stored on `request.state` is this call's fresh
UUID, on both the success and the failure path. -/
theorem dispatch_requestStateId (seed : Nat) (req : Request)
    (call_next : Request → Except PyExc Response) (t1 t2 : ℚ) :
    (dispatch seed req call_next t1 t2).requestStateId = uuid4 seed := by
  unfold dispatch
  cases call_next req <;> rfl

/-- C1: one correlation ID is generated per dispatched request; it is
stored on the request state, appears in the `extra` of both logged
events (entry and exit), and is set as the `X-Request-ID` header on
every response the middleware returns; two requests with distinct
freshness seeds get distinct correlation IDs. -/
theorem dispatch_correlation_id (seed seed₂ : Nat) (req req₂ : Request)
    (h h₂ : Request → Except PyExc Response) (t1 t2 t3 t4 : ℚ)
    (resp : Response) (hok : h req = .ok resp) (hne : seed ≠ seed₂) :
    (dispatch seed req h t1 t2).requestStateId = uuid4 seed ∧
    (dispatch seed req h t1 t2).logs.length = 2 ∧
    (∀ ev ∈ (dispatch seed req h t1 t2).logs,
      dlookup ev.extra "request_id" = some (.str (uuid4 seed))) ∧
    (∀ r', (dispatch seed req h t1 t2).result = .ok r' →
      hlookup r'.headers "X-Request-ID" = some (uuid4 seed)) ∧
    (dispatch seed₂ req₂ h₂ t3 t4).requestStateId ≠
      (dispatch seed req h t1 t2).requestStateId := by
  refine ⟨dispatch_requestStateId seed req h t1 t2, ?_, ?_, ?_, ?_⟩
  · simp [dispatch, hok]
  · intro ev hev
    simp only [dispatch, hok, List.mem_cons, List.not_mem_nil, or_false] at hev
    rcases hev with hev | hev
    · rw [hev]; rfl
    · rw [hev]
      simp only []
      rw [dlookup_dinsert, if_neg (by decide), dlookup_dinsert,
        if_neg (by decide)]
      rfl
  · intro r' hr'
    simp only [dispatch, hok, Except.ok.injEq] at hr'
    rw [← hr']
    simp only []
    rw [hlookup_setHeader, if_pos rfl]
  · rw [dispatch_requestStateId, dispatch_requestStateId]
    exact fun hc => hne (uuid4_injective hc).symm

/-- Witness for C1: two concrete requests with seeds 0 and 1. -/
theorem dispatch_correlation_id_witness :
    (dispatch 0 ⟨"GET", "/ping", some "127.0.0.1"⟩
        (fun _ => .ok ⟨200, []⟩) 0 0).logs.length = 2 ∧
    (∀ ev ∈ (dispatch 0 ⟨"GET", "/ping", some "127.0.0.1"⟩
        (fun _ => .ok ⟨200, []⟩) 0 0).logs,
      dlookup ev.extra "request_id" = some (.str (uuid4 0))) ∧
    (∀ r', (dispatch 0 ⟨"GET", "/ping", some "127.0.0.1"⟩
        (fun _ => .ok ⟨200, []⟩) 0 0).result = .ok r' →
      hlookup r'.headers "X-Request-ID" = some (uuid4 0)) ∧
    (dispatch 1 ⟨"GET", "/pong", Option.none⟩
        (fun _ => .ok ⟨201, []⟩) 0 0).requestStateId ≠
      (dispatch 0 ⟨"GET", "/ping", some "127.0.0.1"⟩
        (fun _ => .ok ⟨200, []⟩) 0 0).requestStateId := by
  have hmain := dispatch_correlation_id 0 1 ⟨"GET", "/ping", some "127.0.0.1"⟩
    ⟨"GET", "/pong", Option.none⟩ (fun _ => .ok ⟨200, []⟩)
    (fun _ => .ok ⟨201, []⟩) 0 0 0 0 ⟨200, []⟩ rfl (by decide)
  exact ⟨hmain.2.1, hmain.2.2.1, hmain.2.2.2.1, hmain.2.2.2.2⟩

/-- C2: when the downstream handler raises, exactly one error event is
logged; its `duration_ms` field is set and non-negative (the wall clock
does not run backwards), `exc_info` is attached, the error's string
representation is included, and the original exception — same type and
message — propagates unchanged to the caller. -/
theorem dispatch_error_propagation (seed : Nat) (req : Request)
    (h : Request → Except PyExc Response) (t1 t2 : ℚ) (e : PyExc)
    (herr : h req = .error e) (hmono : t1 ≤ t2) :
    (dispatch seed req h t1 t2).result = .error e ∧
    (dispatch seed req h t1 t2).logs.countP
      (fun ev => ev.level == "ERROR") = 1 ∧
    ∃ ev q, (dispatch seed req h t1 t2).logs.filter
        (fun ev => ev.level == "ERROR") = [ev] ∧
      dlookup ev.extra "duration_ms" = some (.rat q) ∧ 0 ≤ q ∧
      ev.excInfo = true ∧ dlookup ev.extra "error" = some (.str e.msg) := by
  refine ⟨?_, ?_, ?_⟩
  · simp [dispatch, herr]
  · simp [dispatch, herr]
  · simp only [dispatch, herr]
    refine ⟨_, roundTo2 ((t2 - t1) * 1000), rfl, ?_, ?_, ?_, ?_⟩
    · rw [dlookup_dinsert, if_neg (by decide), dlookup_dinsert, if_pos rfl]
    · exact roundTo2_nonneg _ (mul_nonneg (sub_nonneg.mpr hmono) (by norm_num))
    · rfl
    · rw [dlookup_dinsert, if_pos rfl]

/-- Witness for C2: a handler raising `ValueError: boom` with the clock
advancing from 0 to 1. -/
theorem dispatch_error_propagation_witness :
    (dispatch 0 ⟨"POST", "/extract", some "127.0.0.1"⟩
        (fun _ => .error ⟨"ValueError", "boom"⟩) 0 1).result =
      .error ⟨"ValueError", "boom"⟩ ∧
    (dispatch 0 ⟨"POST", "/extract", some "127.0.0.1"⟩
        (fun _ => .error ⟨"ValueError", "boom"⟩) 0 1).logs.countP
      (fun ev => ev.level == "ERROR") = 1 ∧
    ∃ ev q, (dispatch 0 ⟨"POST", "/extract", some "127.0.0.1"⟩
        (fun _ => .error ⟨"ValueError", "boom"⟩) 0 1).logs.filter
        (fun ev => ev.level == "ERROR") = [ev] ∧
      dlookup ev.extra "duration_ms" = some (.rat q) ∧ 0 ≤ q ∧
      ev.excInfo = true ∧
      dlookup ev.extra "error" = some (.str (PyExc.mk "ValueError" "boom").msg) :=
  dispatch_error_propagation 0 ⟨"POST", "/extract", some "127.0.0.1"⟩
    (fun _ => .error ⟨"ValueError", "boom"⟩) 0 1 ⟨"ValueError", "boom"⟩
    rfl (by norm_num)

end AutoInvoice
